import Mathlib

/-!
Verification of the dependency-resolution and reconciliation core of the
electrode-native repository.

The definitions below are a shallow embedding of the TypeScript source:

* `PackagePath`, `PackagePath.same`, `PackagePath.toString` embed the package
  identity model used by `MiniApp.addDependency` (basePath plus an optional
  version string; `same` compares base paths exactly and, unless
  `ignoreVersion`, the version strings exactly).
* `addDependency` embeds `MiniApp.addDependency` from the `MiniApp` class
  (including the `addDevOrPeerDependency` fast path, the manifest lookups,
  the throwaway-install scan loop, and the version-match check).  External
  effects (manifest lookups, the `findNativeDependencies` scan of the
  throwaway install, `utils.isDependencyApiOrApiImpl`) are supplied by a
  `ManifestEnv` oracle; the observable actions (log calls, yarn adds,
  installs) are recorded in a trace.
* `syncedContainerNativeDependencies` embeds the native-dependency
  reconciliation computed in `syncCauldronContainer`
  (`_.differenceBy(cauldronDeps, compositeDeps, 'basePath')` concatenated
  with the composite's resolved dependencies).
* `syncCauldronContainer` embeds the transactional workflow of
  `syncCauldronContainer` (container-version computation, begin/commit,
  catch-and-discard), with each awaited external call modelled as an
  `Except`-valued oracle in `CauldronEnv` and the performed calls recorded
  in a trace.
* `upgradeToPlatformVersion` embeds `MiniApp.upgradeToPlatformVersion`
  (in-memory dependency-version overwrite, the `ern` object check, the
  package.json write-back and yarn install).
-/

/-- Package identity: `basePath` (scope+name) plus an optional version
string, as in the `PackagePath` class. -/
structure PackagePath where
  basePath : String
  version : Option String
deriving DecidableEq, Repr

/-- `PackagePath.toString`: canonical `name@version` (or bare `name`) form. -/
def PackagePath.toString (p : PackagePath) : String :=
  match p.version with
  | none => p.basePath
  | some v => p.basePath ++ "@" ++ v

/-- `PackagePath.same(other, {ignoreVersion})`: base paths match exactly and,
unless `ignoreVersion`, versions are identical strings. -/
def PackagePath.same (a b : PackagePath) (ignoreVersion : Bool) : Bool :=
  decide (a.basePath = b.basePath ∧ (ignoreVersion = true ∨ a.version = b.version))

/-- Exact basePath lookup in an association list of (basePath, version). -/
def lookupVersion : List (String × String) → String → Option String
  | [], _ => none
  | (k, v) :: rest, b => if k = b then some v else lookupVersion rest b

/-- Oracle environment for one `addDependency` run: the manifest's native and
js sections, the `utils.isDependencyApiOrApiImpl` classification, and the
result of the `findNativeDependencies` scan of the throwaway install
(`.all`, projected to package paths). -/
structure ManifestEnv where
  native : List (String × String)
  js : List (String × String)
  isApiOrApiImpl : String → Bool
  scan : List PackagePath

/-- `manifest.getNativeDependency(new PackagePath(b))`. -/
def manifestNativeDependency (env : ManifestEnv) (b : String) : Option PackagePath :=
  (lookupVersion env.native b).map (fun v => ⟨b, some v⟩)

/-- `manifest.getJsDependency(new PackagePath(b))`. -/
def manifestJsDependency (env : ManifestEnv) (b : String) : Option PackagePath :=
  (lookupVersion env.js b).map (fun v => ⟨b, some v⟩)

/-- `manifestNativeDependency || manifestJsDependency`, as in
`addDependency`. -/
def manifestDependencyFor (env : ManifestEnv) (b : String) : Option PackagePath :=
  (manifestNativeDependency env b).orElse (fun _ => manifestJsDependency env b)

/-- Kinds of exception thrown by `addDependency`. -/
inductive ErrKind
  | versionMismatch
  | transitiveConflict
deriving DecidableEq, Repr

/-- Outcome of an `addDependency` call: a returned (and yarn-added)
PackagePath, the void dev/peer return, the logged-error void returns
(null dependency, unsupported native dependency), or a thrown error. -/
inductive AddOutcome
  | added (p : PackagePath)
  | devPeerAdded
  | nullError
  | unsupportedError (p : PackagePath)
  | thrownErr (k : ErrKind)
deriving DecidableEq, Repr

/-- Boolean test: is the outcome the `UnsupportedNativeDependencyError`
rejection (the `log.error(... plugin is not yet supported ...)` return)? -/
def AddOutcome.isUnsupportedError : AddOutcome → Bool
  | .unsupportedError _ => true
  | _ => false

/-- Observable actions of an `addDependency` run. -/
inductive MAction
  | logError
  | logWarn
  | manifestNativeLookup (b : String)
  | manifestJsLookup (b : String)
  | throwawayInstall (s : String)
  | yarnAdd (s : String)
  | yarnAddDev (s : String)
  | yarnAddPeer (s : String)
deriving DecidableEq, Repr

/-- Boolean test: is the action a `yarn.add` into the MiniApp? -/
def MAction.isYarnAdd : MAction → Bool
  | .yarnAdd _ => true
  | _ => false

/-- Disposition of one scanned native dependency in `addDependency`'s
`for (dep of nativeDependencies.all)` loop body. -/
inductive ScanStep
  | pass
  | warn
  | unsupported
  | conflict
deriving DecidableEq, Repr

/-- The body of `addDependency`'s scan loop for one scanned dependency
`dep`: if `dep` has the candidate's own basePath (version ignored), api or
api-impl modules are warned about and allowed and any other native module is
rejected; otherwise the manifest is consulted for `dep.basePath` and a
version mismatch against a manifest entry is a transitive conflict. -/
def scannedDepCheck (env : ManifestEnv) (dependency dep : PackagePath) : ScanStep :=
  if dependency.same ⟨dep.basePath, none⟩ true then
    if env.isApiOrApiImpl dep.basePath then ScanStep.warn else ScanStep.unsupported
  else
    match manifestNativeDependency env dep.basePath with
    | some manifestDep =>
      if dep.same manifestDep false then ScanStep.pass else ScanStep.conflict
    | none => ScanStep.pass

/-- The scan loop of `addDependency`: processes scanned dependencies in
order; returns the trace of log actions and `some` early outcome
(unsupported-native log-error return, or thrown transitive conflict), or
`none` when every scanned dependency passes. -/
def processScan (env : ManifestEnv) (dependency : PackagePath) :
    List PackagePath → List MAction × Option AddOutcome
  | [] => ([], none)
  | dep :: rest =>
    match scannedDepCheck env dependency dep with
    | ScanStep.warn =>
      (MAction.logWarn :: (processScan env dependency rest).1,
        (processScan env dependency rest).2)
    | ScanStep.pass => processScan env dependency rest
    | ScanStep.unsupported => ([MAction.logError], some (AddOutcome.unsupportedError dep))
    | ScanStep.conflict => ([], some (AddOutcome.thrownErr ErrKind.transitiveConflict))

/-- `MiniApp.addDependency(dependency, {dev, peer})`, returning the trace of
observable actions and the outcome. -/
def addDependency (env : ManifestEnv) (dependency? : Option PackagePath)
    (dev peer : Bool) : List MAction × AddOutcome :=
  match dependency? with
  | none => ([MAction.logError], AddOutcome.nullError)
  | some dependency =>
    if dev || peer then
      if dev then ([MAction.yarnAddDev dependency.toString], AddOutcome.devPeerAdded)
      else ([MAction.yarnAddPeer dependency.toString], AddOutcome.devPeerAdded)
    else
      let tr0 : List MAction :=
        MAction.manifestNativeLookup dependency.basePath ::
          (if (manifestNativeDependency env dependency.basePath).isSome then []
           else [MAction.manifestJsLookup dependency.basePath])
      match manifestDependencyFor env dependency.basePath with
      | none =>
        match processScan env dependency env.scan with
        | (trLoop, some o) =>
          (tr0 ++ [MAction.throwawayInstall dependency.toString] ++ trLoop, o)
        | (trLoop, none) =>
          (tr0 ++ [MAction.throwawayInstall dependency.toString] ++ trLoop
              ++ [MAction.yarnAdd dependency.toString],
            AddOutcome.added dependency)
      | some manifestDependency =>
        match dependency.version with
        | some _ =>
          if dependency.same manifestDependency false then
            (tr0 ++ [MAction.yarnAdd manifestDependency.toString],
              AddOutcome.added manifestDependency)
          else (tr0, AddOutcome.thrownErr ErrKind.versionMismatch)
        | none =>
          (tr0 ++ [MAction.yarnAdd manifestDependency.toString],
            AddOutcome.added manifestDependency)

/-- `_.differenceBy(a, b, 'basePath')`: the elements of `a` whose basePath
does not occur among the basePaths of `b`, in order. -/
def differenceByBasePath (a b : List PackagePath) : List PackagePath :=
  a.filter (fun x => ! b.any (fun y => y.basePath == x.basePath))

/-- The final native-dependency list computed by `syncCauldronContainer` and
passed to `cauldron.syncContainerNativeDependencies`:
`[...extraCauldronNativeDependencies, ...compositeNativeDeps.resolved]`. -/
def syncedContainerNativeDependencies
    (cauldronNativeDependencies compositeResolved : List PackagePath) :
    List PackagePath :=
  differenceByBasePath cauldronNativeDependencies compositeResolved ++ compositeResolved

/-- Semantic version triple (the container versions handled by
`semver.inc(v, 'patch')`). -/
structure SemVer where
  major : Nat
  minor : Nat
  patch : Nat
deriving DecidableEq, Repr

/-- `semver.inc(v, 'patch')`. -/
def bumpPatch (v : SemVer) : SemVer :=
  { v with patch := v.patch + 1 }

/-- The new container version chosen by `syncCauldronContainer`: the pinned
`containerVersion` when supplied, otherwise the stored version patch-bumped,
defaulting to 1.0.0 when no version is stored. -/
def nextContainerVersion (pinned stored : Option SemVer) : SemVer :=
  match pinned with
  | some v => v
  | none =>
    match stored with
    | some s => bumpPatch s
    | none => ⟨1, 0, 0⟩

/-- Observable calls performed by `syncCauldronContainer`. -/
inductive SAction
  | getCauldron
  | beginTransaction
  | stateUpdate
  | getCompositeConfig
  | compositeGen
  | getNativeDeps
  | getResolvedDeps
  | syncDeps (deps : List PackagePath)
  | containerGen
  | updateContainerVersion (v : SemVer)
  | updateErnVersion
  | addYarnLock
  | transformers
  | commit
  | logInfo
  | logError
  | discard
deriving DecidableEq, Repr

/-- Oracle environment for one `syncCauldronContainer` run: each awaited
external call either succeeds (with its value) or throws. -/
structure CauldronEnv where
  getActiveCauldron : Except Unit Unit
  getDescriptorDetach : Except Unit Bool
  containerVersion : Except Unit (Option SemVer)
  topLevelContainerVersion : Except Unit (Option SemVer)
  beginTransaction : Except Unit Unit
  stateUpdate : Except Unit Unit
  compositeGenConfig : Except Unit Unit
  compositeGen : Except Unit Unit
  cauldronNativeDependencies : Except Unit (List PackagePath)
  compositeResolvedNativeDeps : Except Unit (List PackagePath)
  syncDeps : Except Unit Unit
  containerGen : Except Unit Unit
  updateContainerVersion : Except Unit Unit
  updateContainerErnVersion : Except Unit Unit
  addOrUpdateYarnLock : Except Unit Unit
  containerTransformers : Except Unit Unit
  commitTransaction : Except Unit Unit

/-- Sequence one awaited call: on success its action is recorded and the
continuation runs; on a thrown error the run stops with that error. -/
def stepA {α β : Type} (x : Except Unit α) (a : SAction)
    (k : α → List SAction × Except Unit β) : List SAction × Except Unit β :=
  match x with
  | .error _ => ([], .error ())
  | .ok w => (a :: (k w).1, (k w).2)

/-- The container-version computation at the top of the `try` block: the
pinned version when given, else the stored version (per-version or top-level
according to `detachContainerVersionFromRoot`) patch-bumped, else 1.0.0. -/
def computeVersionStep (env : CauldronEnv) (pinned : Option SemVer) :
    Except Unit SemVer :=
  match pinned with
  | some v => Except.ok v
  | none =>
    match env.getDescriptorDetach with
    | .error _ => Except.error ()
    | .ok detach =>
      match (if detach then env.containerVersion else env.topLevelContainerVersion) with
      | .error _ => Except.error ()
      | .ok stored => Except.ok (nextContainerVersion none stored)

/-- The `try` block of `syncCauldronContainer`, as the ordered sequence of
its awaited calls; the run stops at the first thrown error. -/
def trySyncBody (env : CauldronEnv) (pinned : Option SemVer) :
    List SAction × Except Unit SemVer :=
  stepA env.getActiveCauldron SAction.getCauldron fun _ =>
  match computeVersionStep env pinned with
  | .error _ => ([], Except.error ())
  | .ok newVersion =>
    stepA env.beginTransaction SAction.beginTransaction fun _ =>
    stepA env.stateUpdate SAction.stateUpdate fun _ =>
    stepA env.compositeGenConfig SAction.getCompositeConfig fun _ =>
    stepA env.compositeGen SAction.compositeGen fun _ =>
    stepA env.cauldronNativeDependencies SAction.getNativeDeps fun current =>
    stepA env.compositeResolvedNativeDeps SAction.getResolvedDeps fun discovered =>
    stepA env.syncDeps
        (SAction.syncDeps (syncedContainerNativeDependencies current discovered)) fun _ =>
    stepA env.containerGen SAction.containerGen fun _ =>
    stepA env.updateContainerVersion (SAction.updateContainerVersion newVersion) fun _ =>
    stepA env.updateContainerErnVersion SAction.updateErnVersion fun _ =>
    stepA env.addOrUpdateYarnLock SAction.addYarnLock fun _ =>
    stepA env.containerTransformers SAction.transformers fun _ =>
    stepA env.commitTransaction SAction.commit fun _ =>
    ([], Except.ok newVersion)

/-- `syncCauldronContainer`: the `try` block wrapped by the `catch` handler,
which logs the error, discards the open transaction when the cauldron was
obtained, and rethrows. -/
def syncCauldronContainer (env : CauldronEnv) (pinned : Option SemVer) :
    List SAction × Except Unit SemVer :=
  match trySyncBody env pinned with
  | (tr, .ok v) => (tr ++ [SAction.logInfo], Except.ok v)
  | (tr, .error _) =>
    if SAction.getCauldron ∈ tr then
      (tr ++ [SAction.logError, SAction.discard], Except.error ())
    else
      (tr ++ [SAction.logError], Except.error ())

/-- The package.json fields relevant to `upgradeToPlatformVersion`: the
dependency map and the `ern` object (modelled by its `version` field when
present). -/
structure PackageJson where
  dependencies : List (String × String)
  ern : Option String
deriving DecidableEq, Repr

/-- A MiniApp's in-memory `this.packageJson` and the on-disk package.json. -/
structure MiniAppState where
  pkg : PackageJson
  disk : PackageJson
deriving DecidableEq, Repr

/-- Observable actions of an `upgradeToPlatformVersion` run. -/
inductive UAction
  | writePackageJson
  | yarnInstall
deriving DecidableEq, Repr

/-- Overwrite the version recorded for basePath `b`, if present. -/
def setDependencyVersion : List (String × String) → String → String → List (String × String)
  | [], _, _ => []
  | (k, v) :: rest, b, nv =>
    if k = b then (k, nv) :: rest else (k, v) :: setDependencyVersion rest b nv

/-- The first loop of `upgradeToPlatformVersion`: for every manifest
dependency already present in `packageJson.dependencies`, overwrite the
recorded version with the manifest's version when they differ. -/
def upgradeDependencies (deps : List (String × String))
    (manifestDeps : List (String × String)) : List (String × String) :=
  manifestDeps.foldl
    (fun acc md =>
      match lookupVersion acc md.1 with
      | some lv => if md.2 ≠ lv then setDependencyVersion acc md.1 md.2 else acc
      | none => acc)
    deps

/-- `MiniApp.upgradeToPlatformVersion(versionToUpgradeTo)`: updates the
in-memory dependency versions from the manifest, then throws if the
package.json has no `ern` object; otherwise sets `ern.version`, writes the
package.json back to disk and runs yarn install. -/
def upgradeToPlatformVersion (manifestDeps : List (String × String))
    (target : String) (st : MiniAppState) :
    List UAction × MiniAppState × Except Unit Unit :=
  let pkg1 : PackageJson :=
    { st.pkg with dependencies := upgradeDependencies st.pkg.dependencies manifestDeps }
  match pkg1.ern with
  | none => ([], { st with pkg := pkg1 }, Except.error ())
  | some _ =>
    let pkg2 : PackageJson := { pkg1 with ern := some target }
    ([UAction.writePackageJson, UAction.yarnInstall], ⟨pkg2, pkg2⟩, Except.ok ())

/-- Manifest environment with only `react-native@0.59.0` declared (the
spec's canonical-substitution scenario). -/
def rnManifestEnv : ManifestEnv :=
  ⟨[("react-native", "0.59.0")], [], fun _ => false, []⟩

/-- Empty manifest; the candidate `some-native-lib` is itself found native
(and is not an api or api-impl) by the throwaway-install scan. -/
def unmanifestedNativeEnv : ManifestEnv :=
  ⟨[], [], fun _ => false, [⟨"some-native-lib", some "1.0.0"⟩]⟩

/-- Manifest declaring `native-dep@1.0.0`; the scan of candidate `my-lib`
finds a conflicting transitive `native-dep@2.0.0` before the candidate's own
native entry. -/
def orderedConflictEnv : ManifestEnv :=
  ⟨[("native-dep", "1.0.0")], [], fun _ => false,
    [⟨"native-dep", some "2.0.0"⟩, ⟨"my-lib", some "1.0.0"⟩]⟩

/-- Manifest declaring `conflict-dep@1.0.0`; the scan finds only the
transitive `conflict-dep@2.0.0` (a version conflict). -/
def transitiveConflictEnv : ManifestEnv :=
  ⟨[("conflict-dep", "1.0.0")], [], fun _ => false, [⟨"conflict-dep", some "2.0.0"⟩]⟩

/-- Manifest declaring `conflict-dep@1.0.0`; the scan finds the candidate's
own unmanifested native entry before the conflicting transitive
`conflict-dep@2.0.0`. -/
def maskedConflictEnv : ManifestEnv :=
  ⟨[("conflict-dep", "1.0.0")], [], fun _ => false,
    [⟨"other-native", some "1.0.0"⟩, ⟨"conflict-dep", some "2.0.0"⟩]⟩

/-- Cauldron environment in which every awaited call succeeds; no pinned
container version is stored at the version node, the top-level container
version is 1.2.3. -/
def allOkCauldronEnv : CauldronEnv where
  getActiveCauldron := Except.ok ()
  getDescriptorDetach := Except.ok false
  containerVersion := Except.ok none
  topLevelContainerVersion := Except.ok (some ⟨1, 2, 3⟩)
  beginTransaction := Except.ok ()
  stateUpdate := Except.ok ()
  compositeGenConfig := Except.ok ()
  compositeGen := Except.ok ()
  cauldronNativeDependencies := Except.ok []
  compositeResolvedNativeDeps := Except.ok []
  syncDeps := Except.ok ()
  containerGen := Except.ok ()
  updateContainerVersion := Except.ok ()
  updateContainerErnVersion := Except.ok ()
  addOrUpdateYarnLock := Except.ok ()
  containerTransformers := Except.ok ()
  commitTransaction := Except.ok ()

/-- Like `allOkCauldronEnv`, but `commitTransaction` throws. -/
def failingCommitEnv : CauldronEnv :=
  { allOkCauldronEnv with commitTransaction := Except.error () }

/-- A MiniApp whose package.json still uses the legacy `ernPlatformVersion`
field: it has no `ern` object. -/
def staleErnState : MiniAppState :=
  ⟨⟨[("react-native", "0.57.0")], none⟩, ⟨[("react-native", "0.57.0")], none⟩⟩

lemma manifestDependencyFor_eq_none {env : ManifestEnv} {b : String}
    (h : manifestDependencyFor env b = none) :
    manifestNativeDependency env b = none ∧ manifestJsDependency env b = none := by
  cases hx : manifestNativeDependency env b with
  | none =>
    refine ⟨rfl, ?_⟩
    simpa [manifestDependencyFor, hx, Option.orElse] using h
  | some p =>
    exfalso
    simp [manifestDependencyFor, hx, Option.orElse] at h

/-- C9: for a null/undefined dependency argument, `MiniApp.addDependency`
returns at once after a single `log.error`: no exception, no manifest
lookup, no throwaway install, no yarn add, and no returned PackagePath. -/
theorem addDependency_null_dependency (env : ManifestEnv) (dev peer : Bool) :
    addDependency env none dev peer = ([MAction.logError], AddOutcome.nullError) := rfl

/-- C6: a dependency flagged dev or peer bypasses every check: the run
performs exactly one dev- or peer-mode `yarn.add` (no manifest lookup, no
throwaway-install scan, no version comparison) and returns void. -/
theorem addDependency_dev_peer_bypass (env : ManifestEnv) (d : PackagePath)
    (dev peer : Bool) (h : (dev || peer) = true) :
    addDependency env (some d) dev peer
      = (if dev then [MAction.yarnAddDev d.toString] else [MAction.yarnAddPeer d.toString],
          AddOutcome.devPeerAdded) := by
  simp only [addDependency, h, if_true]
  cases dev <;> simp

theorem addDependency_dev_peer_bypass_witness :
    addDependency rnManifestEnv (some ⟨"lodash", some "4.0.0"⟩) true false
      = ([MAction.yarnAddDev "lodash@4.0.0"], AddOutcome.devPeerAdded) := by
  simpa [PackagePath.toString] using
    addDependency_dev_peer_bypass rnManifestEnv ⟨"lodash", some "4.0.0"⟩ true false rfl

/-- C3: for a dependency whose basePath is declared in the manifest and which
carries an explicit version, `addDependency` succeeds and returns the
dependency unchanged when the version equals the manifest's version; when the
versions differ it throws the version-mismatch error and performs no
`yarn.add`. -/
theorem addDependency_manifest_version_match (env : ManifestEnv) (b v mv : String)
    (hm : manifestDependencyFor env b = some ⟨b, some mv⟩) :
    (v = mv →
      (addDependency env (some ⟨b, some v⟩) false false).2 = AddOutcome.added ⟨b, some v⟩) ∧
    (v ≠ mv →
      (addDependency env (some ⟨b, some v⟩) false false).2
          = AddOutcome.thrownErr ErrKind.versionMismatch ∧
        ((addDependency env (some ⟨b, some v⟩) false false).1.any MAction.isYarnAdd) = false) := by
  constructor
  · rintro rfl
    simp [addDependency, hm, PackagePath.same]
  · intro hne
    have hsame : (⟨b, some v⟩ : PackagePath).same ⟨b, some mv⟩ false = false := by
      simp [PackagePath.same, hne]
    refine ⟨?_, ?_⟩
    · simp [addDependency, hm, hsame]
    · cases hnat : manifestNativeDependency env b with
      | none => simp [addDependency, hm, hsame, hnat, MAction.isYarnAdd]
      | some p => simp [addDependency, hm, hsame, hnat, MAction.isYarnAdd]

theorem addDependency_manifest_version_match_witness :
    (addDependency rnManifestEnv (some ⟨"react-native", some "0.59.0"⟩) false false).2
        = AddOutcome.added ⟨"react-native", some "0.59.0"⟩ ∧
      (addDependency rnManifestEnv (some ⟨"react-native", some "0.60.0"⟩) false false).2
        = AddOutcome.thrownErr ErrKind.versionMismatch := by
  refine ⟨?_, ?_⟩
  · exact (addDependency_manifest_version_match rnManifestEnv "react-native" "0.59.0" "0.59.0"
      (by decide)).1 rfl
  · exact ((addDependency_manifest_version_match rnManifestEnv "react-native" "0.60.0" "0.59.0"
      (by decide)).2 (by decide)).1

/-- C4: for a dependency whose basePath is declared in the manifest and which
carries no explicit version, `addDependency` succeeds and returns the
manifest's canonical PackagePath (the manifest version wins). -/
theorem addDependency_manifest_version_wins (env : ManifestEnv) (b mv : String)
    (hm : manifestDependencyFor env b = some ⟨b, some mv⟩) :
    (addDependency env (some ⟨b, none⟩) false false).2 = AddOutcome.added ⟨b, some mv⟩ := by
  simp [addDependency, hm]

theorem addDependency_manifest_version_wins_witness :
    (addDependency rnManifestEnv (some ⟨"react-native", none⟩) false false).2
      = AddOutcome.added ⟨"react-native", some "0.59.0"⟩ :=
  addDependency_manifest_version_wins rnManifestEnv "react-native" "0.59.0" (by decide)

lemma processScan_fst_no_yarnAdd (env : ManifestEnv) (c : PackagePath) :
    ∀ l : List PackagePath, ((processScan env c l).1.any MAction.isYarnAdd) = false
  | [] => rfl
  | dep :: rest => by
    cases h : scannedDepCheck env c dep <;>
      simp [processScan, h, MAction.isYarnAdd, processScan_fst_no_yarnAdd env c rest]

lemma processScan_offender (env : ManifestEnv) (c : PackagePath) :
    ∀ (l : List PackagePath) (d : PackagePath), d ∈ l →
      (scannedDepCheck env c d = ScanStep.unsupported ∨
        scannedDepCheck env c d = ScanStep.conflict) →
      ∃ o, (processScan env c l).2 = some o ∧
        (o.isUnsupportedError
          || (o == AddOutcome.thrownErr ErrKind.transitiveConflict)) = true
  | [], d, hd, _ => absurd hd (List.not_mem_nil d)
  | dep :: rest, d, hd, hoff => by
    have hdr : scannedDepCheck env c dep = ScanStep.warn ∨
        scannedDepCheck env c dep = ScanStep.pass → d ∈ rest := by
      intro hstep
      rcases List.mem_cons.mp hd with heq | hr
      · subst heq
        rcases hoff with h1 | h1 <;> rcases hstep with h2 | h2 <;>
          rw [h1] at h2 <;> exact ScanStep.noConfusion h2
      · exact hr
    cases h : scannedDepCheck env c dep with
    | warn =>
      obtain ⟨o, ho, hp⟩ := processScan_offender env c rest d (hdr (Or.inl h)) hoff
      exact ⟨o, by simp [processScan, h, ho], hp⟩
    | pass =>
      obtain ⟨o, ho, hp⟩ := processScan_offender env c rest d (hdr (Or.inr h)) hoff
      exact ⟨o, by simp [processScan, h, ho], hp⟩
    | unsupported =>
      exact ⟨AddOutcome.unsupportedError dep, by simp [processScan, h],
        by simp [AddOutcome.isUnsupportedError]⟩
    | conflict =>
      exact ⟨AddOutcome.thrownErr ErrKind.transitiveConflict, by simp [processScan, h],
        by simp [AddOutcome.isUnsupportedError]⟩

lemma addDependency_offender_rejects (env : ManifestEnv) (c : PackagePath)
    (hc : manifestDependencyFor env c.basePath = none) (d : PackagePath)
    (hd : d ∈ env.scan)
    (hoff : scannedDepCheck env c d = ScanStep.unsupported ∨
      scannedDepCheck env c d = ScanStep.conflict) :
    ((addDependency env (some c) false false).2.isUnsupportedError
        || ((addDependency env (some c) false false).2
              == AddOutcome.thrownErr ErrKind.transitiveConflict)) = true
      ∧ ((addDependency env (some c) false false).1.any MAction.isYarnAdd) = false := by
  obtain ⟨hnat, _⟩ := manifestDependencyFor_eq_none hc
  obtain ⟨o, ho, hp⟩ := processScan_offender env c env.scan d hd hoff
  have hloop := processScan_fst_no_yarnAdd env c env.scan
  rcases hps : processScan env c env.scan with ⟨trLoop, eo⟩
  rw [hps] at ho hloop
  simp only at ho hloop
  subst ho
  constructor
  · simpa [addDependency, hc, hps] using hp
  · simp [addDependency, hc, hps, hnat, MAction.isYarnAdd, hloop]

lemma addDependency_snd_of_processScan (env : ManifestEnv) (c : PackagePath)
    (o : AddOutcome) (hc : manifestDependencyFor env c.basePath = none)
    (ho : (processScan env c env.scan).2 = some o) :
    (addDependency env (some c) false false).2 = o := by
  rcases hps : processScan env c env.scan with ⟨trLoop, eo⟩
  rw [hps] at ho
  simp only at ho
  subst ho
  simp [addDependency, hc, hps]

lemma processScan_no_earlier_conflict (env : ManifestEnv) (c : PackagePath) :
    ∀ (l₁ : List PackagePath) (d : PackagePath) (l₂ : List PackagePath),
      (∀ x ∈ l₁, scannedDepCheck env c x ≠ ScanStep.conflict) →
      scannedDepCheck env c d = ScanStep.unsupported →
      ∃ p, (processScan env c (l₁ ++ d :: l₂)).2 = some (AddOutcome.unsupportedError p)
  | [], d, l₂, _, hd => ⟨d, by simp [processScan, hd]⟩
  | x :: xs, d, l₂, hnc, hd => by
    cases hx : scannedDepCheck env c x with
    | warn =>
      obtain ⟨p, hp⟩ := processScan_no_earlier_conflict env c xs d l₂
        (fun y hy => hnc y (List.mem_cons_of_mem x hy)) hd
      exact ⟨p, by simp [processScan, hx, hp]⟩
    | pass =>
      obtain ⟨p, hp⟩ := processScan_no_earlier_conflict env c xs d l₂
        (fun y hy => hnc y (List.mem_cons_of_mem x hy)) hd
      exact ⟨p, by simp [processScan, hx, hp]⟩
    | unsupported => exact ⟨x, by simp [processScan, hx]⟩
    | conflict => exact absurd hx (hnc x (List.mem_cons_self x xs))

lemma processScan_conflict_first (env : ManifestEnv) (c : PackagePath) :
    ∀ (p₁ : List PackagePath) (e : PackagePath) (rest : List PackagePath),
      (∀ x ∈ p₁, scannedDepCheck env c x = ScanStep.pass ∨
        scannedDepCheck env c x = ScanStep.warn) →
      scannedDepCheck env c e = ScanStep.conflict →
      (processScan env c (p₁ ++ e :: rest)).2
        = some (AddOutcome.thrownErr ErrKind.transitiveConflict)
  | [], e, rest, _, he => by simp [processScan, he]
  | x :: xs, e, rest, hpw, he => by
    have hrec := processScan_conflict_first env c xs e rest
      (fun y hy => hpw y (List.mem_cons_of_mem x hy)) he
    rcases hpw x (List.mem_cons_self x xs) with hx | hx <;>
      simp [processScan, hx, hrec]

/-- C1 (counterexample): for candidate `my-lib` (not in the manifest) whose
throwaway-install scan finds the conflicting transitive `native-dep@2.0.0`
before the candidate's own non-api native entry, `addDependency` throws the
transitive-conflict error; it does not fail with the unsupported-native
rejection that the claim asserts. -/
theorem addDependency_unsupported_counterexample :
    (addDependency orderedConflictEnv (some ⟨"my-lib", some "1.0.0"⟩) false false).2
        = AddOutcome.thrownErr ErrKind.transitiveConflict
      ∧ (addDependency orderedConflictEnv (some ⟨"my-lib", some "1.0.0"⟩) false false).2
          ≠ AddOutcome.unsupportedError ⟨"my-lib", some "1.0.0"⟩
      ∧ ((addDependency orderedConflictEnv
            (some ⟨"my-lib", some "1.0.0"⟩) false false).2.isUnsupportedError) = false := by
  decide

/-- C1 (amended): for every candidate not declared in the manifest whose
throwaway-install scan (split as `l₁ ++ d :: l₂`) finds a native dependency
`d` with the candidate's own basePath that is not an api or api-impl module,
`addDependency` rejects the candidate and performs no `yarn.add`; when no
earlier-scanned dependency conflicts with its manifest version the failure
is specifically the unsupported-native-dependency rejection, and when an
earlier-scanned conflicting transitive dependency is hit first the failure
is the transitive-conflict error instead. -/
theorem addDependency_rejects_unmanifested_native (env : ManifestEnv) (c d : PackagePath)
    (l₁ l₂ : List PackagePath)
    (hc : manifestDependencyFor env c.basePath = none)
    (hscan : env.scan = l₁ ++ d :: l₂)
    (hbase : d.basePath = c.basePath)
    (hapi : env.isApiOrApiImpl d.basePath = false) :
    (((addDependency env (some c) false false).2.isUnsupportedError
        || ((addDependency env (some c) false false).2
              == AddOutcome.thrownErr ErrKind.transitiveConflict)) = true
      ∧ ((addDependency env (some c) false false).1.any MAction.isYarnAdd) = false)
    ∧ ((∀ e ∈ l₁, scannedDepCheck env c e ≠ ScanStep.conflict) →
        (addDependency env (some c) false false).2.isUnsupportedError = true)
    ∧ (∀ (p₁ : List PackagePath) (e : PackagePath) (p₂ : List PackagePath),
        l₁ = p₁ ++ e :: p₂ →
        (∀ x ∈ p₁, scannedDepCheck env c x = ScanStep.pass ∨
          scannedDepCheck env c x = ScanStep.warn) →
        scannedDepCheck env c e = ScanStep.conflict →
        (addDependency env (some c) false false).2
          = AddOutcome.thrownErr ErrKind.transitiveConflict) := by
  have hstep : scannedDepCheck env c d = ScanStep.unsupported := by
    have h1 : c.same ⟨d.basePath, none⟩ true = true := by
      simp [PackagePath.same, hbase]
    simp [scannedDepCheck, h1, hapi]
  have hd : d ∈ env.scan := by
    rw [hscan]
    exact List.mem_append_right _ (List.mem_cons_self _ _)
  refine ⟨addDependency_offender_rejects env c hc d hd (Or.inl hstep), ?_, ?_⟩
  · intro hnoconf
    obtain ⟨p, hp⟩ := processScan_no_earlier_conflict env c l₁ d l₂ hnoconf hstep
    rw [← hscan] at hp
    rw [addDependency_snd_of_processScan env c _ hc hp]
    rfl
  · intro p₁ e p₂ hl₁ hpw he
    have hsplit : env.scan = p₁ ++ e :: (p₂ ++ d :: l₂) := by
      rw [hscan, hl₁]
      simp
    have hp := processScan_conflict_first env c p₁ e (p₂ ++ d :: l₂) hpw he
    rw [← hsplit] at hp
    exact addDependency_snd_of_processScan env c _ hc hp

theorem addDependency_rejects_unmanifested_native_witness :
    (addDependency unmanifestedNativeEnv
          (some ⟨"some-native-lib", none⟩) false false).2.isUnsupportedError = true
      ∧ ((addDependency unmanifestedNativeEnv
            (some ⟨"some-native-lib", none⟩) false false).1.any MAction.isYarnAdd) = false := by
  have h := addDependency_rejects_unmanifested_native unmanifestedNativeEnv
    ⟨"some-native-lib", none⟩ ⟨"some-native-lib", some "1.0.0"⟩ [] []
    (by decide) rfl rfl rfl
  exact ⟨h.2.1 (by simp), h.1.2⟩

/-- C5 (counterexample): the manifest declares `conflict-dep@1.0.0` and the
scan of candidate `other-native` finds the conflicting transitive
`conflict-dep@2.0.0` — but the candidate's own unmanifested native entry is
scanned first, so `addDependency` returns the unsupported-native log-error,
not the transitive-conflict error the claim asserts. -/
theorem addDependency_transitive_counterexample :
    (addDependency maskedConflictEnv (some ⟨"other-native", none⟩) false false).2
        = AddOutcome.unsupportedError ⟨"other-native", some "1.0.0"⟩
      ∧ (addDependency maskedConflictEnv (some ⟨"other-native", none⟩) false false).2
          ≠ AddOutcome.thrownErr ErrKind.transitiveConflict := by
  decide

/-- C5 (amended): for a candidate not in the manifest and a scanned
transitive native dependency `d` with a basePath different from the
candidate's: if `d`'s basePath is in the native manifest with a version
differing from the installed one, `d`'s check raises the transitive-conflict
error, and the whole `addDependency` run rejects the candidate without any
`yarn.add` — with the transitive-conflict error, or with the
unsupported-native error when the candidate's own unmanifested native entry
is scanned first; if the manifest version matches, or `d` is absent from the
manifest, `d`'s check passes silently. -/
theorem addDependency_transitive_dep_policy (env : ManifestEnv) (c d : PackagePath)
    (hbase : d.basePath ≠ c.basePath) :
    (∀ mv : String, lookupVersion env.native d.basePath = some mv →
      ((d.version ≠ some mv → scannedDepCheck env c d = ScanStep.conflict) ∧
        (d.version = some mv → scannedDepCheck env c d = ScanStep.pass))) ∧
    (lookupVersion env.native d.basePath = none → scannedDepCheck env c d = ScanStep.pass) ∧
    (∀ mv : String, manifestDependencyFor env c.basePath = none → d ∈ env.scan →
      lookupVersion env.native d.basePath = some mv → d.version ≠ some mv →
      (((addDependency env (some c) false false).2.isUnsupportedError
          || ((addDependency env (some c) false false).2
                == AddOutcome.thrownErr ErrKind.transitiveConflict)) = true
        ∧ ((addDependency env (some c) false false).1.any MAction.isYarnAdd) = false)) := by
  have hnsame : c.same ⟨d.basePath, none⟩ true = false := by
    simp [PackagePath.same]
    exact fun h => absurd h.symm hbase
  refine ⟨?_, ?_, ?_⟩
  · intro mv hmv
    have hmd : manifestNativeDependency env d.basePath = some ⟨d.basePath, some mv⟩ := by
      simp [manifestNativeDependency, hmv]
    constructor
    · intro hne
      have hds : d.same ⟨d.basePath, some mv⟩ false = false := by
        simp [PackagePath.same, hne]
      simp [scannedDepCheck, hnsame, hmd, hds]
    · intro heq
      have hds : d.same ⟨d.basePath, some mv⟩ false = true := by
        simp [PackagePath.same, heq]
      simp [scannedDepCheck, hnsame, hmd, hds]
  · intro hmv
    have hmd : manifestNativeDependency env d.basePath = none := by
      simp [manifestNativeDependency, hmv]
    simp [scannedDepCheck, hnsame, hmd]
  · intro mv hc hd hmv hne
    apply addDependency_offender_rejects env c hc d hd
    right
    have hmd : manifestNativeDependency env d.basePath = some ⟨d.basePath, some mv⟩ := by
      simp [manifestNativeDependency, hmv]
    have hds : d.same ⟨d.basePath, some mv⟩ false = false := by
      simp [PackagePath.same, hne]
    simp [scannedDepCheck, hnsame, hmd, hds]

theorem addDependency_transitive_dep_policy_witness :
    scannedDepCheck transitiveConflictEnv ⟨"native-base", some "3.0.0"⟩
        ⟨"conflict-dep", some "2.0.0"⟩ = ScanStep.conflict
      ∧ (((addDependency transitiveConflictEnv
              (some ⟨"native-base", some "3.0.0"⟩) false false).2.isUnsupportedError
          || ((addDependency transitiveConflictEnv
                (some ⟨"native-base", some "3.0.0"⟩) false false).2
                == AddOutcome.thrownErr ErrKind.transitiveConflict)) = true) := by
  constructor
  · exact ((addDependency_transitive_dep_policy transitiveConflictEnv
      ⟨"native-base", some "3.0.0"⟩ ⟨"conflict-dep", some "2.0.0"⟩ (by decide)).1
        "1.0.0" (by decide)).1 (by decide)
  · exact ((addDependency_transitive_dep_policy transitiveConflictEnv
      ⟨"native-base", some "3.0.0"⟩ ⟨"conflict-dep", some "2.0.0"⟩ (by decide)).2.2
        "1.0.0" (by decide) (by decide) (by decide) (by decide)).1

lemma mem_differenceByBasePath {a b : List PackagePath} {x : PackagePath} :
    x ∈ differenceByBasePath a b ↔ x ∈ a ∧ ∀ y ∈ b, y.basePath ≠ x.basePath := by
  simp [differenceByBasePath, List.mem_filter]

/-- C2: the synced native-dependency list is exactly the union of the
discovered dependencies with the current entries whose basePath was not
re-discovered; a re-discovered basePath keeps only its fresh entry, and when
the current and discovered lists each have pairwise-distinct basePaths the
result has no duplicate basePath entries. -/
theorem syncContainerNativeDependencies_union
    (current discovered : List PackagePath)
    (hc : (current.map PackagePath.basePath).Nodup)
    (hd : (discovered.map PackagePath.basePath).Nodup) :
    (∀ x : PackagePath,
        x ∈ syncedContainerNativeDependencies current discovered ↔
          (x ∈ discovered ∨ (x ∈ current ∧ ∀ y ∈ discovered, y.basePath ≠ x.basePath)))
      ∧ ((syncedContainerNativeDependencies current discovered).map
            PackagePath.basePath).Nodup := by
  constructor
  · intro x
    rw [syncedContainerNativeDependencies, List.mem_append, mem_differenceByBasePath, or_comm]
  · rw [syncedContainerNativeDependencies, List.map_append, List.nodup_append]
    refine ⟨?_, hd, ?_⟩
    · exact List.Nodup.sublist ((List.filter_sublist current).map PackagePath.basePath) hc
    · intro a ha hb
      obtain ⟨x, hx, rfl⟩ := List.mem_map.mp ha
      obtain ⟨y, hy, hyx⟩ := List.mem_map.mp hb
      obtain ⟨-, hnx⟩ := mem_differenceByBasePath.mp hx
      exact hnx y hy hyx

theorem syncContainerNativeDependencies_union_witness :
    ((syncedContainerNativeDependencies
          [⟨"A", some "1.0.0"⟩, ⟨"B", some "1.0.0"⟩]
          [⟨"B", some "2.0.0"⟩, ⟨"C", some "1.0.0"⟩]).map PackagePath.basePath).Nodup
      ∧ (⟨"A", some "1.0.0"⟩ : PackagePath) ∈ syncedContainerNativeDependencies
          [⟨"A", some "1.0.0"⟩, ⟨"B", some "1.0.0"⟩]
          [⟨"B", some "2.0.0"⟩, ⟨"C", some "1.0.0"⟩] := by
  have h := syncContainerNativeDependencies_union
    [⟨"A", some "1.0.0"⟩, ⟨"B", some "1.0.0"⟩]
    [⟨"B", some "2.0.0"⟩, ⟨"C", some "1.0.0"⟩] (by decide) (by decide)
  exact ⟨h.2, (h.1 _).mpr (Or.inr ⟨by decide, by decide⟩)⟩

lemma stepA_error {α β : Type} {x : Except Unit α} (a : SAction)
    (k : α → List SAction × Except Unit β) (e : Unit) (h : x = Except.error e) :
    stepA x a k = ([], Except.error ()) := by
  subst h; rfl

lemma stepA_ok {α β : Type} {x : Except Unit α} (a : SAction)
    (k : α → List SAction × Except Unit β) {w : α} (h : x = Except.ok w) :
    stepA x a k = (a :: (k w).1, (k w).2) := by
  subst h; rfl

lemma stepA_snd_ok {α β : Type} {x : Except Unit α} {a : SAction}
    {k : α → List SAction × Except Unit β} {v : β}
    (h : (stepA x a k).2 = Except.ok v) :
    ∃ w, x = Except.ok w ∧ (k w).2 = Except.ok v := by
  cases hx : x with
  | error e =>
    rw [stepA_error a k e hx] at h
    exact absurd h (by simp)
  | ok w =>
    refine ⟨w, rfl, ?_⟩
    rw [stepA_ok a k hx] at h
    exact h

lemma trySyncBody_begin_getCauldron (env : CauldronEnv) (pinned : Option SemVer)
    (h : SAction.beginTransaction ∈ (trySyncBody env pinned).1) :
    SAction.getCauldron ∈ (trySyncBody env pinned).1 := by
  cases hx : env.getActiveCauldron with
  | error e =>
    rw [trySyncBody, stepA_error _ _ e hx] at h
    exact absurd h (by simp)
  | ok w =>
    rw [trySyncBody, stepA_ok _ _ hx]
    exact List.mem_cons_self _ _

lemma getLast?_append_pair {l : List SAction} {a b : SAction} :
    (l ++ [a, b]).getLast? = some b := by
  have h : l ++ [a, b] = (l ++ [a]) ++ [b] := by simp
  rw [h, List.getLast?_concat]

lemma trySyncBody_ok (env : CauldronEnv) (pinned : Option SemVer) (v : SemVer)
    (h : (trySyncBody env pinned).2 = Except.ok v) :
    computeVersionStep env pinned = Except.ok v ∧
      SAction.updateContainerVersion v ∈ (trySyncBody env pinned).1 := by
  rw [trySyncBody] at h
  obtain ⟨w0, hx0, h⟩ := stepA_snd_ok h
  cases hcv : computeVersionStep env pinned with
  | error e =>
    simp only [hcv] at h
    exact absurd h (by simp)
  | ok newVersion =>
    simp only [hcv] at h
    obtain ⟨w1, hx1, h⟩ := stepA_snd_ok h
    obtain ⟨w2, hx2, h⟩ := stepA_snd_ok h
    obtain ⟨w3, hx3, h⟩ := stepA_snd_ok h
    obtain ⟨w4, hx4, h⟩ := stepA_snd_ok h
    obtain ⟨w5, hx5, h⟩ := stepA_snd_ok h
    obtain ⟨w6, hx6, h⟩ := stepA_snd_ok h
    obtain ⟨w7, hx7, h⟩ := stepA_snd_ok h
    obtain ⟨w8, hx8, h⟩ := stepA_snd_ok h
    obtain ⟨w9, hx9, h⟩ := stepA_snd_ok h
    obtain ⟨w10, hx10, h⟩ := stepA_snd_ok h
    obtain ⟨w11, hx11, h⟩ := stepA_snd_ok h
    obtain ⟨w12, hx12, h⟩ := stepA_snd_ok h
    obtain ⟨w13, hx13, h⟩ := stepA_snd_ok h
    simp only at h
    have hv : newVersion = v := Except.ok.inj h
    subst hv
    refine ⟨rfl, ?_⟩
    simp [trySyncBody, stepA, hx0, hcv, hx1, hx2, hx3, hx4, hx5, hx6, hx7,
      hx8, hx9, hx10, hx11, hx12, hx13]

/-- C7: in every `syncCauldronContainer` run in which an error is raised
after `beginTransaction` succeeded (and before `commitTransaction`
completed), `discardTransaction` is the last call performed before the error
propagates. -/
theorem syncCauldronContainer_discards_on_error (env : CauldronEnv) (pinned : Option SemVer)
    (herr : (syncCauldronContainer env pinned).2 = Except.error ())
    (hbegin : SAction.beginTransaction ∈ (syncCauldronContainer env pinned).1) :
    (syncCauldronContainer env pinned).1.getLast? = some SAction.discard ∧
      SAction.discard ∈ (syncCauldronContainer env pinned).1 := by
  rcases htb : trySyncBody env pinned with ⟨tr, r⟩
  cases r with
  | ok v =>
    exfalso
    simp only [syncCauldronContainer, htb] at herr
    exact Except.noConfusion herr
  | error e =>
    have hb : SAction.beginTransaction ∈ tr := by
      simp only [syncCauldronContainer, htb] at hbegin
      split at hbegin <;> simp only [List.mem_append] at hbegin <;>
        rcases hbegin with hb | hb <;> first | exact hb | simp at hb
    have hb' : SAction.beginTransaction ∈ (trySyncBody env pinned).1 := by
      rw [htb]; exact hb
    have hgc' := trySyncBody_begin_getCauldron env pinned hb'
    rw [htb] at hgc'
    have heq : syncCauldronContainer env pinned
        = (tr ++ [SAction.logError, SAction.discard], Except.error ()) := by
      simp only [syncCauldronContainer, htb]
      rw [if_pos hgc']
    rw [heq]
    exact ⟨getLast?_append_pair, by simp⟩

theorem syncCauldronContainer_discards_on_error_witness :
    (syncCauldronContainer failingCommitEnv none).1.getLast? = some SAction.discard ∧
      SAction.discard ∈ (syncCauldronContainer failingCommitEnv none).1 :=
  syncCauldronContainer_discards_on_error failingCommitEnv none rfl (by decide)

/-- C8: in every successful `syncCauldronContainer` run, the container
version recorded via `updateContainerVersion` is the caller-supplied pinned
version when one was given, and otherwise the stored container version with
its patch component incremented, defaulting to 1.0.0 when no version was
stored. -/
theorem syncCauldronContainer_container_version (env : CauldronEnv) (pinned : Option SemVer)
    (detach : Bool) (stored : Option SemVer) (v : SemVer)
    (hdet : env.getDescriptorDetach = Except.ok detach)
    (hst : (if detach then env.containerVersion else env.topLevelContainerVersion)
        = Except.ok stored)
    (hok : (syncCauldronContainer env pinned).2 = Except.ok v) :
    v = nextContainerVersion pinned stored ∧
      SAction.updateContainerVersion (nextContainerVersion pinned stored)
        ∈ (syncCauldronContainer env pinned).1 := by
  have hcve : computeVersionStep env pinned = Except.ok (nextContainerVersion pinned stored) := by
    cases pinned with
    | some p => rfl
    | none => simp [computeVersionStep, hdet, hst]
  rcases htb : trySyncBody env pinned with ⟨tr, r⟩
  cases r with
  | error e =>
    exfalso
    simp only [syncCauldronContainer, htb] at hok
    split at hok <;> simp at hok
  | ok w =>
    have hw : (trySyncBody env pinned).2 = Except.ok w := by rw [htb]
    obtain ⟨hcv, hmem⟩ := trySyncBody_ok env pinned w hw
    have hv : w = v := by
      simp only [syncCauldronContainer, htb] at hok
      exact Except.ok.inj hok
    subst hv
    rw [hcve] at hcv
    have hnext : nextContainerVersion pinned stored = w := Except.ok.inj hcv
    refine ⟨hnext.symm, ?_⟩
    rw [hnext]
    simp only [syncCauldronContainer, htb]
    rw [htb] at hmem
    exact List.mem_append_left _ hmem

theorem syncCauldronContainer_container_version_witness :
    ((⟨1, 2, 4⟩ : SemVer) = nextContainerVersion none (some ⟨1, 2, 3⟩)) ∧
      SAction.updateContainerVersion (nextContainerVersion none (some ⟨1, 2, 3⟩))
        ∈ (syncCauldronContainer allOkCauldronEnv none).1 :=
  syncCauldronContainer_container_version allOkCauldronEnv none false (some ⟨1, 2, 3⟩)
    ⟨1, 2, 4⟩ rfl rfl rfl

/-- C10: when the MiniApp's package.json has no `ern` object,
`upgradeToPlatformVersion` throws before the package.json write-back: the
on-disk package.json is unchanged and neither the file write nor the yarn
install is performed. -/
theorem upgradeToPlatformVersion_missing_ern (manifestDeps : List (String × String))
    (target : String) (st : MiniAppState) (hern : st.pkg.ern = none) :
    (upgradeToPlatformVersion manifestDeps target st).2.2 = Except.error ()
      ∧ (upgradeToPlatformVersion manifestDeps target st).2.1.disk = st.disk
      ∧ UAction.writePackageJson ∉ (upgradeToPlatformVersion manifestDeps target st).1
      ∧ UAction.yarnInstall ∉ (upgradeToPlatformVersion manifestDeps target st).1 := by
  simp [upgradeToPlatformVersion, hern]

theorem upgradeToPlatformVersion_missing_ern_witness :
    (upgradeToPlatformVersion [("react-native", "0.59.0")] "0.28.0" staleErnState).2.2
        = Except.error ()
      ∧ (upgradeToPlatformVersion [("react-native", "0.59.0")] "0.28.0" staleErnState).2.1.disk
          = staleErnState.disk
      ∧ UAction.writePackageJson
          ∉ (upgradeToPlatformVersion [("react-native", "0.59.0")] "0.28.0" staleErnState).1
      ∧ UAction.yarnInstall
          ∉ (upgradeToPlatformVersion [("react-native", "0.59.0")] "0.28.0" staleErnState).1 :=
  upgradeToPlatformVersion_missing_ern [("react-native", "0.59.0")] "0.28.0" staleErnState rfl
